import Mathlib

/-!
Verification of the user-management service: a shallow embedding of the
Validator, Persistence Gateway, User Operations pipeline and Error Mapper
(src/services/user-service.ts, src/routes/users.ts, src/routes/error-handler.ts,
src/index.ts), together with theorems settling the specification claims.

JavaScript strings are modelled as Lean `String` (a list of Unicode scalar
values).  JavaScript `.length` (UTF-16 code units) is modelled by `utf16Len`;
the ECMAScript whitespace class `\s` by `jsWhitespace`; `String.prototype.trim`
by `jsTrim`; `String.prototype.toLowerCase` by `jsToLower` (ASCII case mapping,
which is the fragment the service's data ever exercises).
-/

namespace UserApi

/-- The ECMAScript whitespace class `\s` (also the set trimmed by
`String.prototype.trim`), by Unicode scalar value. -/
def jsWhitespace (c : Char) : Bool :=
  let n := c.toNat
  n == 32 || (9 ≤ n && n ≤ 13) || n == 160 || n == 5760 ||
    (8192 ≤ n && n ≤ 8202) || n == 8232 || n == 8233 || n == 8239 ||
    n == 8287 || n == 12288 || n == 65279

/-- JavaScript `String.prototype.trim`: drop `\s` characters from both ends. -/
def jsTrim (s : String) : String :=
  String.mk (((s.data.dropWhile jsWhitespace).reverse.dropWhile jsWhitespace).reverse)

/-- ASCII case mapping, the fragment of JavaScript `toLowerCase` exercised here. -/
def jsToLowerChar (c : Char) : Char :=
  let n := c.toNat
  if 65 ≤ n && n ≤ 90 then Char.ofNat (n + 32) else c

/-- JavaScript `String.prototype.toLowerCase` (character-wise). -/
def jsToLower (s : String) : String :=
  String.mk (s.data.map jsToLowerChar)

/-- UTF-16 code units contributed by one scalar value. -/
def utf16Units (c : Char) : Nat :=
  if c.toNat < 65536 then 1 else 2

/-- JavaScript `String.prototype.length`: number of UTF-16 code units. -/
def utf16Len (s : String) : Nat :=
  (s.data.map utf16Units).sum

/-- Does `s` start with the pattern (first argument is the pattern)? -/
def listHasPre : List Char → List Char → Bool
  | [], _ => true
  | _ :: _, [] => false
  | p :: ps, c :: cs => p == c && listHasPre ps cs

/-- Does the pattern occur contiguously somewhere in the list? -/
def listHasSub (pat : List Char) : List Char → Bool
  | [] => listHasPre pat []
  | c :: cs => listHasPre pat (c :: cs) || listHasSub pat cs

/-- JavaScript `s.includes(pat)`. -/
def strContains (s pat : String) : Bool :=
  listHasSub pat.data s.data

/-- A single-quote character, used inside the service's error messages. -/
def sq : String := String.mk [Char.ofNat 39]

/-! ## Validator (src/services/user-service.ts lines 46-98) -/

/-- A character admitted by the class `[^\s@]` of the email regex. -/
def isEmailChar (c : Char) : Bool :=
  !(jsWhitespace c) && !(c == '@')

/-- Function `isValidEmail` (user-service.ts line 49): test of the anchored regex
`^[^\s@]+@[^\s@]+\.[^\s@]+$`.  A string matches iff it splits as
`l ++ "@" ++ t` with `l`, `t` nonempty and free of whitespace and `@`, and `t`
carries a dot that is neither its first nor its last character. -/
def isValidEmail (email : String) : Bool :=
  let cs := email.data
  let l := cs.takeWhile (fun c => !(c == '@'))
  match cs.dropWhile (fun c => !(c == '@')) with
  | [] => false
  | _ :: t =>
    !(l.isEmpty) && l.all isEmailChar && !(t.isEmpty) && t.all isEmailChar &&
      ((t.drop 1).dropLast.contains '.')

/-- A character admitted by `[0-9a-f]` under the `i` flag. -/
def isHexDigitCI (c : Char) : Bool :=
  let n := c.toNat
  (48 ≤ n && n ≤ 57) || (97 ≤ n && n ≤ 102) || (65 ≤ n && n ≤ 70)

/-- Split a character list at every hyphen (groups may be empty). -/
def splitDash : List Char → List (List Char)
  | [] => [[]]
  | c :: cs =>
    let r := splitDash cs
    if c == '-' then [] :: r
    else
      match r with
      | [] => [[c]]
      | g :: gs => (c :: g) :: gs

/-- A group of exactly `n` case-insensitive hex digits. -/
def groupOk (g : List Char) (n : Nat) : Bool :=
  g.length == n && g.all isHexDigitCI

/-- Function `isValidUUID` (user-service.ts line 57): test of the anchored regex
`^[0-9a-f]{8}-[0-9a-f]{4}-[0-9a-f]{4}-[0-9a-f]{4}-[0-9a-f]{12}$` with flag `i`:
five hyphen-separated groups of 8, 4, 4, 4 and 12 hex digits. -/
def isValidUUID (id : String) : Bool :=
  match splitDash id.data with
  | [a, b, c, d, e] =>
    groupOk a 8 && groupOk b 4 && groupOk c 4 && groupOk d 4 && groupOk e 12
  | _ => false

/-! ## SHA-256 (FIPS 180-4), the digest behind `hashPassword`
(user-service.ts line 42: `crypto.createHash('sha256').update(password).digest('hex')`;
node hashes the UTF-8 encoding of the string and prints lowercase hex). -/

/-- Truncation to a 32-bit word. -/
def w32 (n : Nat) : Nat := n % 4294967296

/-- Right rotation of a 32-bit word by `n` places. -/
def rotr (n x : Nat) : Nat := w32 ((x >>> n) ||| (x <<< (32 - n)))

/-- Bitwise complement of a 32-bit word. -/
def not32 (x : Nat) : Nat := x ^^^ 4294967295

def ch (x y z : Nat) : Nat := (x &&& y) ^^^ (not32 x &&& z)

def maj (x y z : Nat) : Nat := (x &&& y) ^^^ (x &&& z) ^^^ (y &&& z)

def bigSigma0 (x : Nat) : Nat := rotr 2 x ^^^ rotr 13 x ^^^ rotr 22 x

def bigSigma1 (x : Nat) : Nat := rotr 6 x ^^^ rotr 11 x ^^^ rotr 25 x

def smallSigma0 (x : Nat) : Nat := rotr 7 x ^^^ rotr 18 x ^^^ (x >>> 3)

def smallSigma1 (x : Nat) : Nat := rotr 17 x ^^^ rotr 19 x ^^^ (x >>> 10)

/-- The 64 SHA-256 round constants (FIPS 180-4 section 4.2.2, in decimal). -/
def sha256K : List Nat :=
  [1116352408, 1899447441, 3049323471, 3921009573, 961987163,
   1508970993, 2453635748, 2870763221, 3624381080, 310598401,
   607225278, 1426881987, 1925078388, 2162078206, 2614888103,
   3248222580, 3835390401, 4022224774, 264347078, 604807628,
   770255983, 1249150122, 1555081692, 1996064986, 2554220882,
   2821834349, 2952996808, 3210313671, 3336571891, 3584528711,
   113926993, 338241895, 666307205, 773529912, 1294757372,
   1396182291, 1695183700, 1986661051, 2177026350, 2456956037,
   2730485921, 2820302411, 3259730800, 3345764771, 3516065817,
   3600352804, 4094571909, 275423344, 430227734, 506948616,
   659060556, 883997877, 958139571, 1322822218, 1537002063,
   1747873779, 1955562222, 2024104815, 2227730452, 2361852424,
   2428436474, 2756734187, 3204031479, 3329325298]

/-- The initial SHA-256 hash value (FIPS 180-4 section 5.3.3, in decimal). -/
def sha256H0 : List Nat :=
  [1779033703, 3144134277, 1013904242, 2773480762,
   1359893119, 2600822924, 528734635, 1541459225]

/-- List lookup with default zero, for word schedules. -/
def wget (w : List Nat) (i : Nat) : Nat := w.getD i 0

/-- Extend a 16-word block by `n` further schedule words. -/
def buildW (w : List Nat) : Nat → List Nat
  | 0 => w
  | n + 1 =>
    let prev := buildW w n
    let t := prev.length
    prev ++ [w32 (smallSigma1 (wget prev (t - 2)) + wget prev (t - 7) +
                  smallSigma0 (wget prev (t - 15)) + wget prev (t - 16))]

/-- One SHA-256 round on the eight-word working state. -/
def sha256Round (st : List Nat) (kt wt : Nat) : List Nat :=
  match st with
  | [a, b, c, d, e, f, g, h] =>
    let t1 := w32 (h + bigSigma1 e + ch e f g + kt + wt)
    let t2 := w32 (bigSigma0 a + maj a b c)
    [w32 (t1 + t2), a, b, c, w32 (d + t1), e, f, g]
  | other => other

/-- Compress one 16-word block into the running hash value. -/
def sha256Compress (H : List Nat) (block : List Nat) : List Nat :=
  let w := buildW block 48
  let fin := (sha256K.zip w).foldl (fun st kw => sha256Round st kw.1 kw.2) H
  (H.zip fin).map (fun p => w32 (p.1 + p.2))

/-- Big-endian bytes (8 of them) of the 64-bit message bit length. -/
def be8 (n : Nat) : List Nat :=
  (List.range 8).map (fun i => (n >>> (8 * (7 - i))) % 256)

/-- SHA-256 padding: `0x80`, zeros to 56 mod 64, then the 64-bit bit length. -/
def sha256Pad (msg : List Nat) : List Nat :=
  let L := msg.length
  let zeros := (64 - ((L + 9) % 64)) % 64
  msg ++ [128] ++ List.replicate zeros 0 ++ be8 (8 * L)

/-- Group a padded byte stream into big-endian 32-bit words. -/
def bytesToWords : List Nat → List Nat
  | b0 :: b1 :: b2 :: b3 :: rest =>
    (b0 * 16777216 + b1 * 65536 + b2 * 256 + b3) :: bytesToWords rest
  | _ => []

/-- Fold the 16-word blocks of a padded message into the hash state
(`fuel` bounds the number of blocks; it is passed as the word count). -/
def sha256Blocks (H : List Nat) (ws : List Nat) : Nat → List Nat
  | 0 => H
  | fuel + 1 =>
    match ws with
    | [] => H
    | _ => sha256Blocks (sha256Compress H (ws.take 16)) (ws.drop 16) fuel

/-- UTF-8 encoding of one scalar value. -/
def utf8Encode (c : Char) : List Nat :=
  let n := c.toNat
  if n < 128 then [n]
  else if n < 2048 then [192 + n / 64, 128 + n % 64]
  else if n < 65536 then [224 + n / 4096, 128 + (n / 64) % 64, 128 + n % 64]
  else [240 + n / 262144, 128 + (n / 4096) % 64, 128 + (n / 64) % 64, 128 + n % 64]

/-- The UTF-8 bytes of a string (what node feeds the hash). -/
def utf8Bytes (s : String) : List Nat :=
  (s.data.map utf8Encode).flatten

/-- SHA-256 digest (32 words in, 8 words out is folded here down to bytes). -/
def sha256Digest (msg : List Nat) : List Nat :=
  let ws := bytesToWords (sha256Pad msg)
  let H := sha256Blocks sha256H0 ws ws.length
  (H.map (fun w => [(w >>> 24) % 256, (w >>> 16) % 256, (w >>> 8) % 256, w % 256])).flatten

/-- The sixteen lowercase hex digits, indexed by nibble value: `0`-`9` are
scalar values 48-57 and `a`-`f` are 97-102. -/
def hexDigits : List Char :=
  (List.range 16).map (fun n => if n < 10 then Char.ofNat (48 + n) else Char.ofNat (87 + n))

/-- Nibble to lowercase hex character. -/
def hexDigit (n : Nat) : Char := hexDigits.getD n '0'

/-- Lowercase hex rendering of a byte list (`digest('hex')`). -/
def bytesToHex (bytes : List Nat) : String :=
  String.mk ((bytes.map (fun b => [hexDigit (b / 16), hexDigit (b % 16)])).flatten)

/-- Function `hashPassword` (user-service.ts line 42): lowercase hex of the SHA-256
digest of the password's UTF-8 bytes. -/
def hashPassword (password : String) : String :=
  bytesToHex (sha256Digest (utf8Bytes password))

/-! ## Data model and error taxonomy (user-service.ts lines 4-37) -/

/-- Structure `CreateUserInput` (user-service.ts line 4). -/
structure CreateUserInput where
  name : String
  email : String
  password : String
deriving DecidableEq

/-- A persisted row of the `users` table: the five returned columns plus the
`password` digest column. -/
structure DbUser where
  id : String
  name : String
  email : String
  password : String
  created_at : Nat
  updated_at : Nat
deriving DecidableEq

/-- Shape `User` (user-service.ts line 10): the shape returned to callers.  It has
exactly the columns of the `RETURNING` / `SELECT` lists — no password field. -/
structure User where
  id : String
  name : String
  email : String
  created_at : Nat
  updated_at : Nat
deriving DecidableEq

/-- Project a row onto the returned `User` shape (`RETURNING id, name, email,
created_at, updated_at`); the password digest is dropped. -/
def toUser (u : DbUser) : User :=
  ⟨u.id, u.name, u.email, u.created_at, u.updated_at⟩

/-- The errors the service raises: the three domain classes of
user-service.ts lines 18-37, a plain JavaScript `Error` carrying a message,
and a thrown non-`Error` value carrying its string rendering. -/
inductive AppError where
  | validationError (message : String) (field : Option String)
  | duplicateEmailError (email : String)
  | userNotFoundError (id : String)
  | genericError (message : String)
  | nonError (rendering : String)
deriving DecidableEq

/-- The `error.message` of each class: the constructor messages of
user-service.ts lines 18-37 for the domain classes. -/
def AppError.message : AppError → String
  | .validationError m _ => m
  | .duplicateEmailError e => "User with email " ++ sq ++ e ++ sq ++ " already exists"
  | .userNotFoundError i => "User with ID " ++ sq ++ i ++ sq ++ " not found"
  | .genericError m => m
  | .nonError r => r

/-! ## Persistence gateway (db/connection.ts `query`, modelled on an in-memory
row list; the engine's behaviour on the three statements of user-service.ts) -/

/-- Is the (already normalized) email present in the store?  The `users.email`
unique constraint compares the stored strings exactly. -/
def emailTaken (st : List DbUser) (email : String) : Bool :=
  st.any (fun u => u.email == email)

/-- Outcome of the parameterized `INSERT ... RETURNING`. -/
inductive InsertResult where
  | inserted (row : DbUser) (newDb : List DbUser)
  | uniqueViolation
deriving DecidableEq

/-- Statement `INSERT INTO users (name, email, password) VALUES ($1,$2,$3) RETURNING
id, name, email, created_at, updated_at`: the engine assigns `newId` and the
timestamps, and raises its unique-constraint violation (code 23505) when the
email is already present. -/
def dbInsert (st : List DbUser) (name email password : String)
    (newId : String) (ts : Nat) : InsertResult :=
  if emailTaken st email then .uniqueViolation
  else
    let row : DbUser := ⟨newId, name, email, password, ts, ts⟩
    .inserted row (st ++ [row])

/-- Statement `SELECT id, name, email, created_at, updated_at FROM users WHERE id = $1`:
the returned rows. -/
def dbSelect (st : List DbUser) (id : String) : List DbUser :=
  st.filter (fun u => u.id == id)

/-- Statement `DELETE FROM users WHERE id = $1`: affected row count and remaining rows. -/
def dbDelete (st : List DbUser) (id : String) : Nat × List DbUser :=
  ((st.filter (fun u => u.id == id)).length, st.filter (fun u => !(u.id == id)))

/-! ## Validator entry point (user-service.ts lines 62-98)

The inputs reaching `validateUserInput` from the route are already strings (or
`undefined`, which the JavaScript falsy test conflates with the empty string);
the string-typed embedding therefore renders `!input.x` as `x = ""`, and the
`typeof` arm of each guard is vacuous. -/

/-- Function `validateUserInput` (user-service.ts lines 62-98): first failing check
wins; `none` means the input is accepted. -/
def validateUserInput (input : CreateUserInput) : Option AppError :=
  if input.name = "" then
    some (.validationError "Name is required and must be a string" (some "name"))
  else if utf16Len (jsTrim input.name) = 0 then
    some (.validationError "Name cannot be empty" (some "name"))
  else if 255 < utf16Len input.name then
    some (.validationError "Name must be 255 characters or less" (some "name"))
  else if input.email = "" then
    some (.validationError "Email is required and must be a string" (some "email"))
  else if isValidEmail input.email = false then
    some (.validationError "Email must be a valid email address" (some "email"))
  else if 255 < utf16Len input.email then
    some (.validationError "Email must be 255 characters or less" (some "email"))
  else if input.password = "" then
    some (.validationError "Password is required and must be a string" (some "password"))
  else if utf16Len input.password < 8 then
    some (.validationError "Password must be at least 8 characters long" (some "password"))
  else if 255 < utf16Len input.password then
    some (.validationError "Password must be 255 characters or less" (some "password"))
  else none

/-! ## User operations (user-service.ts lines 103-239)

Each operation returns its outcome, the resulting store, and the number of
persistence calls it issued. -/

/-- Function `createUser` (user-service.ts lines 103-148).  `newId` and `ts` stand for
the id and timestamp the engine assigns to the inserted row. -/
def createUser (st : List DbUser) (input : CreateUserInput)
    (newId : String) (ts : Nat) :
    Except AppError User × List DbUser × Nat :=
  match validateUserInput input with
  | some e => (.error e, st, 0)
  | none =>
    let hashedPassword := hashPassword input.password
    match dbInsert st (jsTrim input.name) (jsTrim (jsToLower input.email))
        hashedPassword newId ts with
    | .uniqueViolation => (.error (.duplicateEmailError input.email), st, 1)
    | .inserted row newDb => (.ok (toUser row), newDb, 1)

/-- The identifier validation prefix of `getUserById`
(user-service.ts lines 199-205), transcribed on its own. -/
def getIdCheck (id : String) : Option AppError :=
  if id = "" then
    some (.validationError "User ID is required and must be a string" (some "id"))
  else if isValidUUID id = false then
    some (.validationError "User ID must be a valid UUID" (some "id"))
  else none

/-- The identifier validation prefix of `deleteUserById`
(user-service.ts lines 156-162), transcribed on its own. -/
def deleteIdCheck (id : String) : Option AppError :=
  if id = "" then
    some (.validationError "User ID is required and must be a string" (some "id"))
  else if isValidUUID id = false then
    some (.validationError "User ID must be a valid UUID" (some "id"))
  else none

/-- Function `getUserById` (user-service.ts lines 196-239): outcome and number of
persistence calls issued (the store is read-only here). -/
def getUserById (st : List DbUser) (id : String) :
    Except AppError User × Nat :=
  if id = "" then
    (.error (.validationError "User ID is required and must be a string" (some "id")), 0)
  else if isValidUUID id = false then
    (.error (.validationError "User ID must be a valid UUID" (some "id")), 0)
  else
    match dbSelect st id with
    | [] => (.error (.userNotFoundError id), 1)
    | u :: _ => (.ok (toUser u), 1)

/-- Function `deleteUserById` (user-service.ts lines 153-191): outcome, resulting
store, and number of persistence calls issued. -/
def deleteUserById (st : List DbUser) (id : String) :
    Except AppError Unit × List DbUser × Nat :=
  if id = "" then
    (.error (.validationError "User ID is required and must be a string" (some "id")), st, 0)
  else if isValidUUID id = false then
    (.error (.validationError "User ID must be a valid UUID" (some "id")), st, 0)
  else
    let r := dbDelete st id
    if r.1 = 0 then (.error (.userNotFoundError id), r.2, 1)
    else (.ok (), r.2, 1)

/-! ## Error mapper and route-level error responses
(routes/error-handler.ts, routes/users.ts, index.ts)

A JSON response is a status code and the key/value entries of the object
literal passed to `res.json` in source order; `JSON.stringify` drops keys
whose value is `undefined`, rendered here by `optEntry`. -/

/-- An HTTP response: status code and JSON body entries. -/
structure ApiResponse where
  httpStatus : Nat
  body : List (String × String)
deriving DecidableEq

/-- A JSON entry that is dropped when the value is `undefined`. -/
def optEntry (k : String) : Option String → List (String × String)
  | some v => [(k, v)]
  | none => []

/-- Function `handleUserRouteError` (routes/error-handler.ts lines 11-96): the
`instanceof` chain, then the connection test on the message, then the
fallback. -/
def handleUserRouteError (err : AppError) (operation : String) : ApiResponse :=
  match err with
  | .validationError m f =>
    ⟨400, [("status", "error"), ("error", "validation_error"), ("message", m)] ++
      optEntry "field" f⟩
  | .duplicateEmailError _ =>
    ⟨409, [("status", "error"), ("error", "duplicate_email"),
      ("message", err.message), ("field", "email")]⟩
  | .userNotFoundError _ =>
    ⟨404, [("status", "error"), ("error", "user_not_found"),
      ("message", err.message)]⟩
  | .genericError m =>
    if strContains m "connect" then
      ⟨503, [("status", "error"), ("error", "database_unavailable"),
        ("message", "Unable to connect to database"), ("details", m)]⟩
    else
      ⟨500, [("status", "error"), ("error", "internal_server_error"),
        ("message", "An unexpected error occurred while " ++ operation),
        ("details", m)]⟩
  | .nonError r =>
    ⟨500, [("status", "error"), ("error", "internal_server_error"),
      ("message", "An unexpected error occurred while " ++ operation),
      ("details", r)]⟩

/-- The malformed-JSON response of the body-parsing middleware
(index.ts lines 12-22); `d` is the parser's message. -/
def invalidJsonResponse (d : String) : ApiResponse :=
  ⟨400, [("error", "invalid_json"),
    ("message", "Request body contains invalid JSON"), ("details", d)]⟩

/-- The non-object-body response of `POST /users` (routes/users.ts lines 15-27). -/
def invalidRequestResponse : ApiResponse :=
  ⟨400, [("status", "error"), ("error", "invalid_request"),
    ("message", "Request body must be a JSON object"), ("field", "body")]⟩

/-- The missing-id response of `GET/DELETE /users/:id`
(routes/users.ts lines 56-67 and 96-107). -/
def missingIdResponse : ApiResponse :=
  ⟨400, [("status", "error"), ("error", "validation_error"),
    ("message", "User ID is required"), ("field", "id")]⟩

/-- The global fallback error handler's response (index.ts lines 29-36),
reachable through body-parser failures that are not `SyntaxError`s (for
example an oversized payload).  `details` is the error's message when
`NODE_ENV` is `development` and `undefined` — hence dropped by
`JSON.stringify` — otherwise. -/
def globalErrorResponse (dev : Bool) (m : String) : ApiResponse :=
  ⟨500, [("error", "internal_server_error"),
    ("message", "An unexpected error occurred")] ++
    optEntry "details" (if dev then some m else none)⟩

/-- The health-check route's catch response (routes/health-check.ts lines
17-22); `d` is the caught error's rendering. -/
def healthCheckErrorResponse (d : String) : ApiResponse :=
  ⟨500, [("status", "error"), ("error", "health_check_failed"),
    ("message", "Health check endpoint encountered an error"), ("details", d)]⟩

/-- The error responses the service can produce: every error-mapper output,
the body-parsing middleware's malformed-JSON response, the global fallback
handler's response, the health-check catch response, and the two inline
route responses (non-object body, missing id). -/
def serviceErrorResponse (r : ApiResponse) : Prop :=
  (∃ e op, r = handleUserRouteError e op) ∨
  (∃ d, r = invalidJsonResponse d) ∨
  (∃ dev m, r = globalErrorResponse dev m) ∨
  (∃ d, r = healthCheckErrorResponse d) ∨
  r = invalidRequestResponse ∨ r = missingIdResponse

deriving instance DecidableEq for Except

/-- Does an operation outcome consist of a `ValidationError` whose `field`
is `"id"`? -/
def failsIdValidation {α : Type} : Except AppError α → Bool
  | .error (.validationError _ (some f)) => f == "id"
  | _ => false

/-! ## Helper lemmas -/

/-- String concatenation concatenates the underlying character lists. -/
theorem strData (a b : String) : (a ++ b).data = a.data ++ b.data := by
  cases a; cases b; rfl

/-- A list starts with itself followed by anything. -/
theorem listHasPre_self (p rest : List Char) : listHasPre p (p ++ rest) = true := by
  induction p with
  | nil => rfl
  | cons c cs ih => simp [listHasPre, ih]

/-- A pattern occurs in any list of which it is a contiguous middle part. -/
theorem listHasSub_middle (a p rest : List Char) :
    listHasSub p (a ++ (p ++ rest)) = true := by
  induction a with
  | nil =>
    cases h : p ++ rest with
    | nil =>
      rcases List.append_eq_nil.mp h with ⟨hp, _⟩
      simp [hp, listHasSub, listHasPre]
    | cons x xs =>
      simp only [List.nil_append, h, listHasSub]
      rw [← h, listHasPre_self]
      simp
  | cons y ys ih =>
    simp only [List.cons_append, listHasSub, List.append_eq, ih, Bool.or_true]

/-- String concatenation is associative. -/
theorem strAssoc (a b c : String) : a ++ b ++ c = a ++ (b ++ c) := by
  cases a; cases b; cases c
  exact congrArg String.mk (List.append_assoc _ _ _)

/-- Lemma: `strContains` finds a pattern sitting between two other strings. -/
theorem strContains_middle (a p b : String) :
    strContains (a ++ p ++ b) p = true := by
  simp only [strContains, strData, List.append_assoc]
  exact listHasSub_middle a.data p.data b.data

/-- Every hex digit the encoder can emit is one of the sixteen lowercase
digits (out-of-range nibbles fall back to the default, which is also one). -/
theorem hexDigit_mem (n : Nat) : hexDigit n ∈ hexDigits := by
  rw [hexDigit, List.getD, List.get?_eq_getElem?]
  rcases h : hexDigits[n]? with _ | c
  · simp only [Option.getD_none]
    decide
  · simp only [Option.getD_some]
    exact List.getElem?_mem h

/-- Every character of a hex rendering is a lowercase hex digit. -/
theorem bytesToHex_chars (bytes : List Nat) :
    ∀ c ∈ (bytesToHex bytes).data, c ∈ hexDigits := by
  intro c hc
  simp only [bytesToHex, List.mem_flatten] at hc
  rcases hc with ⟨l, hl, hcl⟩
  simp only [List.mem_map] at hl
  rcases hl with ⟨byte, _, rfl⟩
  simp only [List.mem_cons, List.not_mem_nil, or_false] at hcl
  rcases hcl with rfl | rfl
  · exact hexDigit_mem _
  · exact hexDigit_mem _

/-- A successful `createUser`: when validation accepts the input and the
normalized email is not yet present, the insert succeeds, the store gains
exactly the normalized row carrying the password digest, and the caller gets
the `User` projection of it. -/
theorem createUser_ok (st : List DbUser) (input : CreateUserInput)
    (newId : String) (ts : Nat)
    (hval : validateUserInput input = none)
    (hfresh : emailTaken st (jsTrim (jsToLower input.email)) = false) :
    createUser st input newId ts =
      (Except.ok ⟨newId, jsTrim input.name, jsTrim (jsToLower input.email), ts, ts⟩,
       st ++ [⟨newId, jsTrim input.name, jsTrim (jsToLower input.email),
              hashPassword input.password, ts, ts⟩], 1) := by
  simp [createUser, hval, dbInsert, hfresh, toUser]

/-! ## Claim theorems -/

/-- Claim C1: for every input that passes create's validation (taken together
with a store in which the normalized email is still free, so that the single
insert succeeds), `createUser` returns a record whose `name` is the trimmed
input name and whose `email` is the lower-cased trimmed input email.  The
result lives in the `User` shape, which carries exactly the columns of the
`RETURNING` list — it has no password field. -/
theorem createUser_returns_normalized (st : List DbUser) (input : CreateUserInput)
    (newId : String) (ts : Nat)
    (hval : validateUserInput input = none)
    (hfresh : emailTaken st (jsTrim (jsToLower input.email)) = false) :
    (createUser st input newId ts).1 =
      Except.ok ⟨newId, jsTrim input.name, jsTrim (jsToLower input.email), ts, ts⟩ := by
  rw [createUser_ok st input newId ts hval hfresh]

/-- Witness for C1 at a concrete input: the name is trimmed, the email is
lower-cased. -/
theorem createUser_returns_normalized_witness :
    (createUser [] ⟨" John Doe ", "JOHN@Example.com", "password123"⟩ "id-1" 7).1 =
      Except.ok ⟨"id-1", "John Doe", "john@example.com", 7, 7⟩ := by
  have h := createUser_returns_normalized []
    ⟨" John Doe ", "JOHN@Example.com", "password123"⟩ "id-1" 7 (by decide) (by decide)
  exact h.trans (by decide)

/-- Claim C2 (evaluation at the failing input): `createUser`'s validator
rejects `{name: "", email: "bad", password: "short"}` with the message of the
required/absent branch, not the trimmed-empty branch — the JavaScript falsy
test `!input.name` already fires on the empty string.  A whitespace-only
name, by contrast, does reach the trimmed-empty branch. -/
theorem validateUserInput_emptyName_hits_requiredBranch :
    validateUserInput ⟨"", "bad", "short"⟩ =
      some (.validationError "Name is required and must be a string" (some "name")) ∧
    validateUserInput ⟨" ", "bad", "short"⟩ =
      some (.validationError "Name cannot be empty" (some "name")) := by
  constructor <;> decide

/-- Claim C3 counterexample: the second of two create calls whose emails
differ only by surrounding whitespace fails with a `ValidationError` on
`email` — not with `DuplicateEmailError` — because the anchored email regex
admits no leading or trailing whitespace, so the call dies in validation
before any insert. -/
theorem whitespaceEmail_fails_validation_not_duplicate :
    (createUser [] ⟨"A", "a@b.co", "password1"⟩ "id1" 0).1 =
      Except.ok ⟨"id1", "A", "a@b.co", 0, 0⟩ ∧
    (createUser (createUser [] ⟨"A", "a@b.co", "password1"⟩ "id1" 0).2.1
        ⟨"B", " a@b.co", "password2"⟩ "id2" 1).1 =
      Except.error (.validationError "Email must be a valid email address" (some "email")) ∧
    (createUser (createUser [] ⟨"A", "a@b.co", "password1"⟩ "id1" 0).2.1
        ⟨"B", " a@b.co", "password2"⟩ "id2" 1).1 ≠
      Except.error (.duplicateEmailError " a@b.co") := by
  refine ⟨by decide, by decide, by decide⟩

/-- Claim C3 as amended: for two create calls whose emails agree up to letter
case (which subsumes identical emails), when the first succeeds the second
fails with `DuplicateEmailError` carrying the second call's raw email; the
insert's unique-constraint violation is what produces it. -/
theorem createUser_caseVariant_duplicate (st : List DbUser)
    (i1 i2 : CreateUserInput) (id1 id2 : String) (t1 t2 : Nat)
    (hv1 : validateUserInput i1 = none)
    (hfresh : emailTaken st (jsTrim (jsToLower i1.email)) = false)
    (hv2 : validateUserInput i2 = none)
    (hcase : jsToLower i2.email = jsToLower i1.email) :
    (createUser st i1 id1 t1).1 =
      Except.ok ⟨id1, jsTrim i1.name, jsTrim (jsToLower i1.email), t1, t1⟩ ∧
    (createUser (createUser st i1 id1 t1).2.1 i2 id2 t2).1 =
      Except.error (.duplicateEmailError i2.email) := by
  rw [createUser_ok st i1 id1 t1 hv1 hfresh]
  refine ⟨rfl, ?_⟩
  have htaken : emailTaken
      (st ++ [⟨id1, jsTrim i1.name, jsTrim (jsToLower i1.email),
              hashPassword i1.password, t1, t1⟩])
      (jsTrim (jsToLower i2.email)) = true := by
    simp [emailTaken, hcase]
  simp [createUser, hv2, dbInsert, htaken]

/-- Witness for the amended C3: a concrete case-variant duplicate. -/
theorem createUser_caseVariant_duplicate_witness :
    (createUser [] ⟨"Ann", "Ann@Mail.org", "secret-pass"⟩ "id-a" 1).1 =
      Except.ok ⟨"id-a", "Ann", "ann@mail.org", 1, 1⟩ ∧
    (createUser (createUser [] ⟨"Ann", "Ann@Mail.org", "secret-pass"⟩ "id-a" 1).2.1
        ⟨"Bob", "ann@mail.ORG", "secret-pass2"⟩ "id-b" 2).1 =
      Except.error (.duplicateEmailError "ann@mail.ORG") := by
  have h := createUser_caseVariant_duplicate [] ⟨"Ann", "Ann@Mail.org", "secret-pass"⟩
    ⟨"Bob", "ann@mail.ORG", "secret-pass2"⟩ "id-a" "id-b" 1 2
    (by decide) (by decide) (by decide) (by decide)
  exact ⟨h.1.trans (by decide), h.2⟩

/-- Claim C4: for every identifier rejected by the UUID shape test, both
`getUserById` and `deleteUserById` fail with a `ValidationError` on field
`"id"`, issue zero persistence calls, and leave the store untouched. -/
theorem invalidId_rejected_before_persistence (st st' : List DbUser) (id : String)
    (h : isValidUUID id = false) :
    failsIdValidation (getUserById st id).1 = true ∧
    (getUserById st id).2 = 0 ∧
    failsIdValidation (deleteUserById st' id).1 = true ∧
    (deleteUserById st' id).2.1 = st' ∧
    (deleteUserById st' id).2.2 = 0 := by
  by_cases h1 : id = ""
  · subst h1
    exact ⟨rfl, rfl, rfl, rfl, rfl⟩
  · simp [getUserById, deleteUserById, h1, h, failsIdValidation]

/-- Witness for C4 at the spec's sample invalid identifier. -/
theorem invalidId_rejected_before_persistence_witness :
    failsIdValidation (getUserById [] "not-a-valid-uuid").1 = true ∧
    (getUserById [] "not-a-valid-uuid").2 = 0 ∧
    failsIdValidation (deleteUserById [⟨"u1", "N", "n@e.co", "digest", 0, 0⟩]
      "not-a-valid-uuid").1 = true ∧
    (deleteUserById [⟨"u1", "N", "n@e.co", "digest", 0, 0⟩] "not-a-valid-uuid").2.1 =
      [⟨"u1", "N", "n@e.co", "digest", 0, 0⟩] ∧
    (deleteUserById [⟨"u1", "N", "n@e.co", "digest", 0, 0⟩] "not-a-valid-uuid").2.2 = 0 :=
  invalidId_rejected_before_persistence [] [⟨"u1", "N", "n@e.co", "digest", 0, 0⟩]
    "not-a-valid-uuid" (by decide)

/-- Claim C5: for a well-formed UUID carried by no row, both `getUserById`
and `deleteUserById` fail with `UserNotFoundError`, whose message contains
the UUID; and on a store that does carry the UUID, the first delete succeeds
while an immediately repeated delete fails with `UserNotFoundError`. -/
theorem unknownId_notFound_and_deleteTwice (st st' : List DbUser) (id : String)
    (hid : isValidUUID id = true)
    (habs : st.all (fun u => u.id != id) = true)
    (hmem : st'.any (fun u => u.id == id) = true) :
    (getUserById st id).1 = Except.error (.userNotFoundError id) ∧
    (deleteUserById st id).1 = Except.error (.userNotFoundError id) ∧
    strContains ((AppError.userNotFoundError id).message) id = true ∧
    (deleteUserById st' id).1 = Except.ok () ∧
    (deleteUserById (deleteUserById st' id).2.1 id).1 =
      Except.error (.userNotFoundError id) := by
  have hne : id ≠ "" := by
    intro he
    rw [he] at hid
    exact absurd hid (by decide)
  have hnone : ∀ u ∈ st, ¬(u.id == id) = true := by
    intro u hu
    have := List.all_eq_true.mp habs u hu
    simpa using this
  have hfilter : st.filter (fun u => u.id == id) = [] :=
    List.filter_eq_nil_iff.mpr hnone
  have hmsg : (AppError.userNotFoundError id).message =
      ("User with ID " ++ sq) ++ id ++ (sq ++ " not found") := by
    simp only [AppError.message, strAssoc]
  refine ⟨?_, ?_, ?_, ?_, ?_⟩
  · simp [getUserById, hne, hid, dbSelect, hfilter]
  · simp [deleteUserById, hne, hid, dbDelete, hfilter]
  · rw [hmsg]
    exact strContains_middle _ _ _
  · rcases List.any_eq_true.mp hmem with ⟨u, hu, hbeq⟩
    have humem : u ∈ st'.filter (fun v => v.id == id) :=
      List.mem_filter.mpr ⟨hu, hbeq⟩
    have hlen : (st'.filter (fun v => v.id == id)).length ≠ 0 := by
      intro h0
      rw [List.length_eq_zero] at h0
      rw [h0] at humem
      exact absurd humem (List.not_mem_nil u)
    simp [deleteUserById, hne, hid, dbDelete, hlen]
  · have hfilter2 :
        (st'.filter (fun u => !(u.id == id))).filter (fun u => u.id == id) = [] := by
      apply List.filter_eq_nil_iff.mpr
      intro u hu
      rcases List.mem_filter.mp hu with ⟨_, hnot⟩
      simpa using hnot
    have hdel : (deleteUserById st' id).2.1 = st'.filter (fun u => !(u.id == id)) := by
      simp only [deleteUserById, if_neg hne, dbDelete]
      rw [if_neg (show ¬(isValidUUID id = false) by simp [hid])]
      split <;> rfl
    rw [hdel]
    simp [deleteUserById, hne, hid, dbDelete, hfilter2]

/-- Witness for C5 at the spec's sample UUID: the empty store has no such
row; a one-row store carrying it admits one successful delete and then a
failed one. -/
theorem unknownId_notFound_and_deleteTwice_witness :
    (getUserById [] "123e4567-e89b-12d3-a456-426614174000").1 =
      Except.error (.userNotFoundError "123e4567-e89b-12d3-a456-426614174000") ∧
    (deleteUserById [] "123e4567-e89b-12d3-a456-426614174000").1 =
      Except.error (.userNotFoundError "123e4567-e89b-12d3-a456-426614174000") ∧
    strContains
      ((AppError.userNotFoundError "123e4567-e89b-12d3-a456-426614174000").message)
      "123e4567-e89b-12d3-a456-426614174000" = true ∧
    (deleteUserById [⟨"123e4567-e89b-12d3-a456-426614174000", "N", "n@e.co",
        "digest", 0, 0⟩] "123e4567-e89b-12d3-a456-426614174000").1 = Except.ok () ∧
    (deleteUserById
      (deleteUserById [⟨"123e4567-e89b-12d3-a456-426614174000", "N", "n@e.co",
        "digest", 0, 0⟩] "123e4567-e89b-12d3-a456-426614174000").2.1
      "123e4567-e89b-12d3-a456-426614174000").1 =
      Except.error (.userNotFoundError "123e4567-e89b-12d3-a456-426614174000") :=
  unknownId_notFound_and_deleteTwice []
    [⟨"123e4567-e89b-12d3-a456-426614174000", "N", "n@e.co", "digest", 0, 0⟩]
    "123e4567-e89b-12d3-a456-426614174000" (by decide) (by decide) (by decide)

/-- Claim C6: the error mapper realizes the spec's table with first match
winning, uniformly in the operation: `ValidationError` → 400
`validation_error` with the field; `DuplicateEmailError` → 409
`duplicate_email` with field `email`; `UserNotFoundError` → 404
`user_not_found`; otherwise an `Error` whose message contains `connect` →
503 `database_unavailable` with details; anything else (messages without
`connect`, and thrown non-`Error` values whatever their rendering) → 500
`internal_server_error` with details.  In particular a `ValidationError`
whose message contains `connect` still maps to 400. -/
theorem errorMapper_table (op m email id r : String) (f : Option String) :
    handleUserRouteError (.validationError m f) op =
      ⟨400, [("status", "error"), ("error", "validation_error"), ("message", m)] ++
        optEntry "field" f⟩ ∧
    handleUserRouteError (.duplicateEmailError email) op =
      ⟨409, [("status", "error"), ("error", "duplicate_email"),
        ("message", (AppError.duplicateEmailError email).message), ("field", "email")]⟩ ∧
    handleUserRouteError (.userNotFoundError id) op =
      ⟨404, [("status", "error"), ("error", "user_not_found"),
        ("message", (AppError.userNotFoundError id).message)]⟩ ∧
    (strContains m "connect" = true →
      handleUserRouteError (.genericError m) op =
        ⟨503, [("status", "error"), ("error", "database_unavailable"),
          ("message", "Unable to connect to database"), ("details", m)]⟩) ∧
    (strContains m "connect" = false →
      handleUserRouteError (.genericError m) op =
        ⟨500, [("status", "error"), ("error", "internal_server_error"),
          ("message", "An unexpected error occurred while " ++ op), ("details", m)]⟩) ∧
    handleUserRouteError (.nonError r) op =
      ⟨500, [("status", "error"), ("error", "internal_server_error"),
        ("message", "An unexpected error occurred while " ++ op), ("details", r)]⟩ ∧
    (handleUserRouteError (.validationError m f) op).httpStatus = 400 := by
  refine ⟨rfl, rfl, rfl, ?_, ?_, rfl, rfl⟩
  · intro hc
    simp [handleUserRouteError, hc]
  · intro hc
    simp [handleUserRouteError, hc]

/-- Witness for C6, exercising each row at concrete data; the validation row
is exercised on a message that contains `connect` and still lands on 400. -/
theorem errorMapper_table_witness :
    handleUserRouteError (.validationError "cannot connect" (some "name")) "creating user" =
      ⟨400, [("status", "error"), ("error", "validation_error"),
        ("message", "cannot connect"), ("field", "name")]⟩ ∧
    handleUserRouteError (.genericError "could not connect to server") "creating user" =
      ⟨503, [("status", "error"), ("error", "database_unavailable"),
        ("message", "Unable to connect to database"),
        ("details", "could not connect to server")]⟩ ∧
    handleUserRouteError (.genericError "boom") "creating user" =
      ⟨500, [("status", "error"), ("error", "internal_server_error"),
        ("message", "An unexpected error occurred while creating user"),
        ("details", "boom")]⟩ := by
  have h1 := errorMapper_table "creating user" "cannot connect" "e" "i" "r" (some "name")
  have h2 := errorMapper_table "creating user" "could not connect to server" "e" "i" "r" none
  have h3 := errorMapper_table "creating user" "boom" "e" "i" "r" none
  exact ⟨h1.1, h2.2.2.2.1 (by decide), h3.2.2.2.2.1 (by decide)⟩

/-- Claim C7 counterexample: the malformed-JSON response is an error
response of the service whose body has no `status` entry at all (its keys
are `error`, `message`, `details`), refuting "every error response includes
`status: "error"`"; the global fallback handler's response (reachable via a
non-`SyntaxError` body-parser failure such as an oversized payload) lacks
the `status` entry as well. -/
theorem invalidJson_response_lacks_status :
    serviceErrorResponse (invalidJsonResponse "Unexpected token") ∧
    (invalidJsonResponse "Unexpected token").body.lookup "status" = none ∧
    (invalidJsonResponse "Unexpected token").body.lookup "error" = some "invalid_json" ∧
    serviceErrorResponse (globalErrorResponse false "request entity too large") ∧
    (globalErrorResponse false "request entity too large").body.lookup "status" = none ∧
    (globalErrorResponse false "request entity too large").body.lookup "error" =
      some "internal_server_error" :=
  ⟨Or.inr (Or.inl ⟨"Unexpected token", rfl⟩), by decide, by decide,
   Or.inr (Or.inr (Or.inl ⟨false, "request entity too large", rfl⟩)),
   by decide, by decide⟩

/-- Claim C7 as amended: every error response of the service carries an
`error` entry, and every one except the malformed-JSON response and the
global fallback handler's response — the two object literals written without
a `status` key — also carries `status: "error"`. -/
theorem serviceErrors_envelope (rsp : ApiResponse)
    (h : serviceErrorResponse rsp) :
    (rsp.body.lookup "error").isSome = true ∧
    ((∀ d, rsp ≠ invalidJsonResponse d) →
      (∀ dev m, rsp ≠ globalErrorResponse dev m) →
      rsp.body.lookup "status" = some "error") := by
  rcases h with ⟨e, op, rfl⟩ | ⟨d, rfl⟩ | ⟨dev, m, rfl⟩ | ⟨d, rfl⟩ | rfl | rfl
  · cases e with
    | genericError m =>
      by_cases hc : strContains m "connect" <;>
        simp [handleUserRouteError, hc, List.lookup]
    | _ =>
      simp [handleUserRouteError, List.lookup, optEntry]
  · refine ⟨by simp [invalidJsonResponse, List.lookup], fun hne _ => ?_⟩
    exact absurd rfl (hne d)
  · refine ⟨by simp [globalErrorResponse, List.lookup], fun _ hng => ?_⟩
    exact absurd rfl (hng dev m)
  · exact ⟨by simp [healthCheckErrorResponse, List.lookup],
      fun _ _ => by simp [healthCheckErrorResponse, List.lookup]⟩
  · exact ⟨by decide, fun _ _ => by decide⟩
  · exact ⟨by decide, fun _ _ => by decide⟩

/-- Witness for the amended C7 at the non-object-body response. -/
theorem serviceErrors_envelope_witness :
    (invalidRequestResponse.body.lookup "error").isSome = true :=
  (serviceErrors_envelope invalidRequestResponse
    (Or.inr (Or.inr (Or.inr (Or.inr (Or.inl rfl)))))).1

/-- The SHA-256 embedding agrees with FIPS 180-4 on the standard `"abc"`
test vector (and so `hashPassword` is the real digest, hex-encoded). -/
theorem hashPassword_fips_testVector :
    hashPassword "abc" =
      "ba7816bf8f01cfea414140de5dae2223b00361a396177a9cb410ff61f20015ad" := by
  decide

/-- The SHA-256 embedding agrees with FIPS 180-4 on the empty message. -/
theorem hashPassword_fips_testVector_empty :
    hashPassword "" =
      "e3b0c44298fc1c149afbf4c8996fb92427ae41e4649b934ca495991b7852b855" := by
  decide

/-- Claim C8: for every accepted password (on a store where the insert
succeeds), the value stored in the row's password column is exactly
`hashPassword input.password` — the SHA-256 digest of the password, each of
whose characters is a lowercase hex digit — while the operation's result is
the `User` projection of the row, a shape without a password field; the
plaintext reaches neither the store (only its digest does) nor the output. -/
theorem createUser_persists_digest_only (st : List DbUser) (input : CreateUserInput)
    (newId : String) (ts : Nat)
    (hval : validateUserInput input = none)
    (hfresh : emailTaken st (jsTrim (jsToLower input.email)) = false) :
    (createUser st input newId ts).2.1 =
      st ++ [⟨newId, jsTrim input.name, jsTrim (jsToLower input.email),
             hashPassword input.password, ts, ts⟩] ∧
    (∀ c ∈ (hashPassword input.password).data, c ∈ hexDigits) ∧
    (createUser st input newId ts).1 =
      Except.ok (toUser ⟨newId, jsTrim input.name, jsTrim (jsToLower input.email),
             hashPassword input.password, ts, ts⟩) := by
  rw [createUser_ok st input newId ts hval hfresh]
  exact ⟨rfl, bytesToHex_chars _, rfl⟩

/-- Witness for C8: the stored column for a concrete accepted input is the
digest, not the plaintext. -/
theorem createUser_persists_digest_only_witness :
    (createUser [] ⟨"Ada", "ada@ex.com", "password123"⟩ "id-2" 3).2.1 =
      [⟨"id-2", "Ada", "ada@ex.com",
        "ef92b778bafe771e89245b89ecbc08a44a4e166c06659911881f383d4473e94f", 3, 3⟩] := by
  have h := (createUser_persists_digest_only []
    ⟨"Ada", "ada@ex.com", "password123"⟩ "id-2" 3 (by decide) (by decide)).1
  exact h.trans (by decide)

/-- Claim C9: `getUserById` and `deleteUserById` validate identifiers
identically — the transcriptions of their validation prefixes are equal at
every string, and whenever a prefix rejects, the corresponding operation
fails with exactly that error. -/
theorem idChecks_agree (st st' : List DbUser) (id : String) :
    getIdCheck id = deleteIdCheck id ∧
    (∀ e, getIdCheck id = some e → (getUserById st id).1 = Except.error e) ∧
    (∀ e, deleteIdCheck id = some e → (deleteUserById st' id).1 = Except.error e) := by
  refine ⟨rfl, ?_, ?_⟩
  · intro e h
    by_cases h1 : id = ""
    · subst h1
      simp only [getIdCheck, if_pos rfl, reduceIte, Option.some.injEq] at h
      simp [getUserById, ← h]
    · by_cases h2 : isValidUUID id = false
      · simp only [getIdCheck, if_neg h1, if_pos h2, Option.some.injEq] at h
        simp [getUserById, h1, h2, ← h]
      · simp [getIdCheck, h1, h2] at h
  · intro e h
    by_cases h1 : id = ""
    · subst h1
      simp only [deleteIdCheck, if_pos rfl, reduceIte, Option.some.injEq] at h
      simp [deleteUserById, ← h]
    · by_cases h2 : isValidUUID id = false
      · simp only [deleteIdCheck, if_neg h1, if_pos h2, Option.some.injEq] at h
        simp [deleteUserById, h1, h2, ← h]
      · simp [deleteIdCheck, h1, h2] at h

/-- Witness for C9 at a concrete malformed identifier. -/
theorem idChecks_agree_witness :
    (getUserById [] "123e4567-e89b-12d3-a456-42661417400Z").1 =
      Except.error (.validationError "User ID must be a valid UUID" (some "id")) :=
  (idChecks_agree [] [] "123e4567-e89b-12d3-a456-42661417400Z").2.1
    (.validationError "User ID must be a valid UUID" (some "id")) (by decide)

/-- Claim C10: the empty string at each public interface is handled by the
required/absent branch, not by a length or shape check: `getUserById ""` and
`deleteUserById ""` fail on `id` with the required message (not the UUID
message), and create with an empty name (any email and password) or an empty
password (any otherwise valid name and email) fails with that field's
required message (not "cannot be empty" / "at least 8 characters"). -/
theorem emptyString_treated_as_absent (st st' : List DbUser) (n e p : String)
    (hn1 : n ≠ "") (hn2 : utf16Len (jsTrim n) ≠ 0) (hn3 : utf16Len n ≤ 255)
    (he1 : e ≠ "") (he2 : isValidEmail e = true) (he3 : utf16Len e ≤ 255) :
    (getUserById st "").1 =
      Except.error (.validationError "User ID is required and must be a string" (some "id")) ∧
    (deleteUserById st' "").1 =
      Except.error (.validationError "User ID is required and must be a string" (some "id")) ∧
    validateUserInput ⟨"", e, p⟩ =
      some (.validationError "Name is required and must be a string" (some "name")) ∧
    validateUserInput ⟨n, e, ""⟩ =
      some (.validationError "Password is required and must be a string" (some "password")) := by
  refine ⟨rfl, rfl, rfl, ?_⟩
  simp [validateUserInput, hn1, hn2, he1, he2,
    Nat.not_lt.mpr hn3, Nat.not_lt.mpr he3]

/-- Witness for C10 with concrete otherwise-valid name and email. -/
theorem emptyString_treated_as_absent_witness :
    validateUserInput ⟨"John", "j@e.co", ""⟩ =
      some (.validationError "Password is required and must be a string" (some "password")) :=
  (emptyString_treated_as_absent [] [] "John" "j@e.co" "pw"
    (by decide) (by decide) (by decide) (by decide) (by decide) (by decide)).2.2.2

end UserApi
